import Mathlib

/-!
Verification of the Experiment Analytics Engine (conversational query
pipeline, timeline aligner, simulation calculator) against its
natural-language specification.

The Python sources are shallowly embedded: strings are `List Char`,
floats are `ℚ`, `datetime.now()` becomes an explicit `now : Nat`
argument, SQL tables become lists of records and each SQL query is
re-implemented as the corresponding filter/join/group-by list
computation.  Display-string formatting of dates (strftime / month
abbreviations) is not modelled; dates stay as `Nat` ordinals.
-/

set_option maxRecDepth 2000

set_option maxHeartbeats 1000000

namespace Spec2Proof

/-- Python strings, embedded as lists of characters. -/
abbrev Str := List Char

/-- The whitespace class used by Python's `str.strip()` and by `\s` in the
regular expressions of the source (space, tab, newline, carriage return,
vertical tab, form feed). -/
def pyIsSpace (c : Char) : Bool :=
  c == ' ' || c == '\t' || c == '\n' || c == '\r' ||
  c == Char.ofNat 11 || c == Char.ofNat 12

/-- Python `str.strip()`: drop leading and trailing whitespace. -/
def pyStrip (s : Str) : Str :=
  ((s.dropWhile pyIsSpace).reverse.dropWhile pyIsSpace).reverse

/-- Python `str.lower()` (the sources only ever lower ASCII SQL text). -/
def lowerStr (s : Str) : Str := s.map Char.toLower

/-- Whether `p` is a leading segment of `s` (character-exact). -/
def isPrefixL : Str → Str → Bool
  | [], _ => true
  | _ :: _, [] => false
  | c :: p, d :: s => c == d && isPrefixL p s

/-- Index of the first occurrence of `needle` in `hay`, if any. -/
def findSub (needle : Str) : Str → Option Nat
  | [] => if isPrefixL needle [] then some 0 else none
  | c :: t =>
    if isPrefixL needle (c :: t) then some 0
    else (findSub needle t).map (· + 1)

/-- Substring test (Python `needle in hay`). -/
def containsSub (needle hay : Str) : Bool := (findSub needle hay).isSome

/-- Case-insensitive occurrence search, as performed by `re.IGNORECASE`
patterns in the source.  Lowercasing is position-preserving, so the
returned index is valid in the original string. -/
def findSubCI (needle hay : Str) : Option Nat :=
  findSub (lowerStr needle) (lowerStr hay)

/-- Insert `x` into `l` before the first element `y` with `le x y`
(stable insertion step). -/
def insertSorted {α : Type} (le : α → α → Bool) (x : α) : List α → List α
  | [] => [x]
  | y :: t => if le x y then x :: y :: t else y :: insertSorted le x t

/-- Stable sort by a total boolean preorder (the result Python's stable
`sorted` / SQL `ORDER BY` produces). -/
def sortBy {α : Type} (le : α → α → Bool) (l : List α) : List α :=
  l.foldr (insertSorted le) []

/-- Python-dict insertion on an association list: if the key is present its
value is updated in place (the key keeps its position), otherwise the pair
is appended — exactly the ordering semantics of a CPython `dict`. -/
def dictSet {α β : Type} [DecidableEq α] (k : α) (v : β) :
    List (α × β) → List (α × β)
  | [] => [(k, v)]
  | (k', v') :: t => if k' = k then (k, v) :: t else (k', v') :: dictSet k v t

/-- Association-list lookup (Python `dict[...]` / `dict.get`). -/
def dictFind {α β : Type} [DecidableEq α] (l : List (α × β)) (k : α) :
    Option β :=
  (l.find? (fun kv => kv.1 = k)).map (·.2)

/-- Python `dict.get(k, d)`. -/
def dictGetD {α β : Type} [DecidableEq α] (l : List (α × β)) (k : α)
    (d : β) : β :=
  (dictFind l k).getD d

/-- Remove a key from an association list (Python `del dict[k]`). -/
def dictDel {α β : Type} [DecidableEq α] (k : α) :
    List (α × β) → List (α × β)
  | [] => []
  | (k', v') :: t => if k' = k then t else (k', v') :: dictDel k t

/-- Keys of Python dicts appearing in query-result rows: pandas column
names are strings, but the code may index a row with an integer literal
(`data[0][0]`), so both key shapes are represented. -/
inductive PyKey : Type
  | int (n : Int)
  | str (s : Str)
deriving DecidableEq

/-- Values stored in query-result rows. -/
inductive PyVal : Type
  | int (n : Int)
  | str (s : Str)
deriving DecidableEq

/-- Python `str(value)` for row values. -/
def pyStrVal : PyVal → Str
  | .int n => (toString n).toList
  | .str s => s

/-- The message carried by a Python `KeyError` (`str(KeyError(0)) = "0"`,
`str(KeyError('a')) = "'a'"`). -/
def keyErrMsg : PyKey → Str
  | .int n => (toString n).toList
  | .str s => '\'' :: (s ++ ['\''])

/-- One result row: an ordered field-name → value mapping, as produced by
`DataFrame.to_dict('records')`. -/
abbrev Row := List (PyKey × PyVal)

/-- Python dict indexing `row[k]`: raises `KeyError` when absent. -/
def rowIndex (row : Row) (k : PyKey) : Except Str PyVal :=
  match dictFind row k with
  | some v => .ok v
  | none => .error (keyErrMsg k)

/-- The dictionary returned by `UnifiedDatabaseService.execute_query`:
`success`, `data` (rows), `columns`, `row_count`, and `error` on failure. -/
structure ExecResult : Type where
  success : Bool
  data : List Row
  columns : List Str
  rowCount : Nat
  error : Str
deriving DecidableEq

/-! ## `cache_service.QueryCache` -/

/-- One stored entry of `QueryCache.cache`. -/
structure CacheEntry : Type where
  query : Str
  result : ExecResult
  createdAt : Nat
  expiresAt : Nat
deriving DecidableEq

/-- The dictionary handed back on a cache hit. -/
structure CachePayload : Type where
  success : Bool
  data : List Row
  columns : List Str
  rowCount : Nat
  cached : Bool
  cacheTimestamp : Nat
deriving DecidableEq

/-- Model of `QueryCache.__init__`: the store plus the analytics counters.  The MD5
fingerprint of `_get_cache_key` is modelled by keying directly on the
normalized query text (MD5 is injective on the inputs of interest, and the
source only ever compares keys for equality). -/
structure QueryCache : Type where
  cache : List (Str × CacheEntry)
  defaultTtl : Nat
  totalQueries : Nat
  cacheHits : Nat
  cacheMisses : Nat
deriving DecidableEq

/-- A fresh `QueryCache(default_ttl=300)`. -/
def QueryCache.init : QueryCache := ⟨[], 300, 0, 0, 0⟩

/-- Model of `QueryCache._get_cache_key`: `sql_query.strip().lower()` (the MD5 hash
of the normalized text is modelled by the normalized text itself). -/
def getCacheKey (sqlQuery : Str) : Str := lowerStr (pyStrip sqlQuery)

/-- Model of `QueryCache.get`: bump the counters, look the key up, evict and miss if
expired, otherwise return the stored payload marked `cached`. -/
def cacheGet (c : QueryCache) (now : Nat) (sqlQuery : Str) :
    Option CachePayload × QueryCache :=
  let key := getCacheKey sqlQuery
  match dictFind c.cache key with
  | some item =>
    if now > item.expiresAt then
      (none, { c with cache := dictDel key c.cache,
                      totalQueries := c.totalQueries + 1,
                      cacheMisses := c.cacheMisses + 1 })
    else
      (some ⟨item.result.success, item.result.data, item.result.columns,
             item.result.rowCount, true, item.createdAt⟩,
       { c with totalQueries := c.totalQueries + 1,
                cacheHits := c.cacheHits + 1 })
  | none =>
    (none, { c with totalQueries := c.totalQueries + 1,
                    cacheMisses := c.cacheMisses + 1 })

/-- Model of `ttl = ttl or self.default_ttl`: `None` and `0` both fall back to the
default (Python truthiness). -/
def resolveTtl (ttl : Option Nat) (defaultTtl : Nat) : Nat :=
  match ttl with
  | none => defaultTtl
  | some t => if t = 0 then defaultTtl else t

/-- Model of `QueryCache.set`: overwrite the entry under the normalized key. -/
def cacheSet (c : QueryCache) (now : Nat) (sqlQuery : Str)
    (result : ExecResult) (ttl : Option Nat) : QueryCache :=
  let key := getCacheKey sqlQuery
  let t := resolveTtl ttl c.defaultTtl
  { c with cache := dictSet key ⟨sqlQuery, result, now, now + t⟩ c.cache }

/-! ## `chatbot.ABTestingChatbot` — the conversational pipeline

The two LLM round trips of a turn (the reformulation call of
`_reformulate_response_with_data` and the narrative call of
`_generate_no_data_response`) are modelled as oracle arguments: `some t`
is the text the call produced, `none` means the call failed on both retry
attempts and the `except` branch runs.  The first LLM call is modelled by
passing its output (`draft`) directly.  The query executor
`self.db_service.execute_query` is an arbitrary function argument, and
each invocation of it is recorded in the outcome for observability
(mirroring the `sql_execute` log event at each call site). -/

/-- The `"```sql"` marker searched for by `get_response`
(case-sensitive `in` test). -/
def sqlMarker : Str := "```sql".toList

/-- A code fence `"```"`. -/
def sqlFence : Str := "```".toList

/-- First match of `re.findall(r'```sql\s*(.*?)\s*```', text,
re.DOTALL | re.IGNORECASE)`: the text between the first (case-insensitive)
`"```sql"` and the earliest following `"```"`, with surrounding whitespace
absorbed by the greedy `\s*` groups; `none` when there is no complete
block.  (If the first `"```sql"` has no later `"```"` at all, no later
position can start a match either, since any later `"```sql"` would itself
contain a `"```"`.) -/
def extractFirstSqlBlock (s : Str) : Option Str :=
  match findSubCI sqlMarker s with
  | none => none
  | some p =>
    let rest := s.drop (p + 6)
    match findSub sqlFence rest with
    | none => none
    | some k => some (pyStrip (rest.take k))

/-- Model of `re.sub(r'```sql.*?```', '', text, flags=DOTALL | IGNORECASE)`:
delete every non-overlapping lazily-matched block, resuming the scan after
each deleted block. -/
def removeSqlBlocksAux : Nat → Str → Str
  | 0, s => s
  | fuel + 1, s =>
    match findSubCI sqlMarker s with
    | none => s
    | some p =>
      let rest := s.drop (p + 6)
      match findSub sqlFence rest with
      | none => s
      | some k => s.take p ++ removeSqlBlocksAux fuel (rest.drop (k + 3))

/-- All `"```sql ... ```"` blocks removed (fueled by the string length,
which bounds the number of matches). -/
def removeSqlBlocks (s : Str) : Str := removeSqlBlocksAux s.length s

/-- Python `str.replace(pat, repl)` for the single-character pattern used
at the fallback site (`original_response.replace('X', ...)`). -/
def pyReplaceChar (pat : Char) (repl : Str) (s : Str) : Str :=
  s.foldr (fun c acc => if c = pat then repl ++ acc else c :: acc) []

/-- Model of `ABTestingChatbot._reformulate_response_with_data`.  On oracle success
the reformulated text is the answer; on failure the deterministic fallback
runs: a single one-field row is substituted for the `'X'` placeholder via
`data[0][0]` (an integer-keyed dict access, which raises `KeyError` when
row keys are column-name strings), otherwise a literal row count is
appended. -/
def reformulateResponseWithData (originalResponse : Str) (data : List Row)
    (reformOracle : Option Str) : Except Str Str :=
  match reformOracle with
  | some t => .ok t
  | none =>
    if data.length = 1 ∧ (data.headD []).length = 1 then
      match rowIndex (data.headD []) (.int 0) with
      | .ok v => .ok (pyReplaceChar 'X' (pyStrVal v) originalResponse)
      | .error e => .error e
    else
      .ok (originalResponse ++ "\n\nEncontré ".toList ++
           (toString data.length).toList ++ " registro(s) en los datos.".toList)

/-- Model of `ABTestingChatbot._generate_no_data_response`: the narrative LLM text
when the call succeeds, otherwise the fixed apology fallback (its inner
`except` swallows every error). -/
def generateNoDataResponse (noDataOracle : Option Str) : Str :=
  noDataOracle.getD
    ("Lo siento, no tengo datos disponibles para tu consulta. Por favor intenta con otros criterios o períodos.".toList)

deriving instance DecidableEq for Except

/-- What `_execute_sql_from_response` produced: `ok none` when no complete
SQL block was found, `ok (some text)` for a produced answer, `error` for a
propagating exception — together with the instrumentation counters. -/
structure SqlExecOutcome : Type where
  result : Except Str (Option Str)
  executedQueries : List Str
  reformCalls : Nat
  noDataCalls : Nat
deriving DecidableEq

/-- Model of `ABTestingChatbot._execute_sql_from_response`: extract the first SQL
block (returning `None` when there is no complete block), execute it, and
route to reformulation (≥ 1 row), or to the no-data narrative (0 rows or
execution failure). -/
def executeSqlFromResponse (responseText : Str)
    (execQuery : Str → ExecResult)
    (reformOracle noDataOracle : Option Str) : SqlExecOutcome :=
  match extractFirstSqlBlock responseText with
  | none => ⟨.ok none, [], 0, 0⟩
  | some raw =>
    let sqlQuery := pyStrip raw
    let result := execQuery sqlQuery
    if result.success then
      let cleanResponse := pyStrip (removeSqlBlocks responseText)
      if result.data ≠ [] then
        match reformulateResponseWithData cleanResponse result.data reformOracle with
        | .ok t => ⟨.ok (some t), [sqlQuery], 1, 0⟩
        | .error e => ⟨.error e, [sqlQuery], 1, 0⟩
      else
        ⟨.ok (some (generateNoDataResponse noDataOracle)), [sqlQuery], 0, 1⟩
    else
      ⟨.ok (some (generateNoDataResponse noDataOracle)), [sqlQuery], 0, 1⟩

/-- One conversation-memory message. -/
structure Msg : Type where
  role : Str
  content : Str
deriving DecidableEq

/-- Model of `ConversationMemory.max_messages`. -/
def maxMessages : Nat := 20

/-- Model of `ConversationMemory.add_message`: append, then keep only the most
recent `max_messages` entries (`self.messages[-20:]`). -/
def addMessage (messages : List Msg) (m : Msg) : List Msg :=
  let l := messages ++ [m]
  if l.length > maxMessages then l.drop (l.length - maxMessages) else l

/-- Everything observable about one chatbot turn. -/
structure TurnOutcome : Type where
  answer : Str
  memory : List Msg
  executedQueries : List Str
  reformCalls : Nat
  noDataCalls : Nat
deriving DecidableEq

/-- Prefix of the top-level error answer
(`f"Error al generar respuesta: {str(e)}"`). -/
def errAnswer (e : Str) : Str := "Error al generar respuesta: ".toList ++ e

/-- Model of `ABTestingChatbot.get_response` for a turn whose first LLM call
returned `draft`: record the user message, detect `"```sql"`, run
`_execute_sql_from_response`, keep the draft when that returns a falsy
value (`None` or an empty string), record the assistant message, and
convert any escaping exception into the generic error answer (in which
case the assistant message is never recorded). -/
def getResponse (memory : List Msg) (userMessage draft : Str)
    (execQuery : Str → ExecResult)
    (reformOracle noDataOracle : Option Str) : TurnOutcome :=
  let mem1 := addMessage memory ⟨"user".toList, userMessage⟩
  if containsSub sqlMarker draft then
    let o := executeSqlFromResponse draft execQuery reformOracle noDataOracle
    match o.result with
    | .ok sqlResults =>
      -- `if sql_results:` — `None` and `""` both keep the draft
      let assistantMessage :=
        match sqlResults with
        | some s => if s = [] then draft else s
        | none => draft
      ⟨assistantMessage, addMessage mem1 ⟨"assistant".toList, assistantMessage⟩,
       o.executedQueries, o.reformCalls, o.noDataCalls⟩
    | .error e =>
      ⟨errAnswer e, mem1, o.executedQueries, o.reformCalls, o.noDataCalls⟩
  else
    ⟨draft, addMessage mem1 ⟨"assistant".toList, draft⟩, [], 0, 0⟩

/-- The envelope fields extracted by `ChatbotService._parse_response`. -/
structure ParseResult : Type where
  sqlUsed : Str
  sqlExecuted : Bool
  data : List Row
  cached : Bool
deriving DecidableEq

/-- Model of `ChatbotService._parse_response`: re-extract the first SQL block from
the final response text and consult the result cache for it; on a hit the
cached rows populate the envelope's `data` field, otherwise `data` stays
empty (the comment in the source marks direct execution here as a
placeholder — no query is ever executed by this step). -/
def parseResponse (responseText : Str) (cache : QueryCache) (now : Nat) :
    ParseResult × QueryCache :=
  match extractFirstSqlBlock responseText with
  | none => (⟨[], false, [], false⟩, cache)
  | some raw =>
    let sqlQuery := pyStrip raw
    match cacheGet cache now sqlQuery with
    | (some payload, cache') => (⟨sqlQuery, true, payload.data, true⟩, cache')
    | (none, cache') => (⟨sqlQuery, true, [], false⟩, cache')

/-! ## `UnifiedDatabaseService` — simulation calculator -/

/-- One row of the `capex_fee` table (`capex` and `fee` are nullable). -/
structure CapexRow : Type where
  typologyId : Nat
  leverId : Nat
  capex : Option ℚ
  fee : Option ℚ
deriving DecidableEq

/-- The reference tables read by the simulation calculator: the three
per-typology OLS coefficient tables (`feature`, `parametro`), the
`typology_master` and `lever_master` dimension tables (id, name), and
`capex_fee`. -/
structure SimDb : Type where
  olsSuperHiper : List (Str × ℚ)
  olsConveniencia : List (Str × ℚ)
  olsDrogas : List (Str × ℚ)
  typologyMaster : List (Nat × Str)
  leverMaster : List (Nat × Str)
  capexFee : List CapexRow
deriving DecidableEq

/-- Build the `{row.feature: row.parametro}` dict from the fetched rows.
(The query's `ORDER BY feature` only affects which of several duplicate
feature rows would win; the master-data invariant of one row per name
makes the order irrelevant, so rows are folded in table order.) -/
def buildParamDict (rows : List (Str × ℚ)) : List (Str × ℚ) :=
  rows.foldl (fun acc r => dictSet r.1 r.2 acc) []

/-- Model of `UnifiedDatabaseService.get_ols_params`: the fixed
tipología → table mapping, failing for any other typology name. -/
def getOlsParams (db : SimDb) (tipologia : Str) :
    Except Str (List (Str × ℚ)) :=
  if tipologia = "Super e hiper".toList then .ok (buildParamDict db.olsSuperHiper)
  else if tipologia = "Conveniencia".toList then .ok (buildParamDict db.olsConveniencia)
  else if tipologia = "Droguerías".toList then .ok (buildParamDict db.olsDrogas)
  else .error ("Tipología no válida: ".toList ++ tipologia)

/-- One line of the cost breakdown
(`{'palanca': ..., 'capex_usd': ..., 'fee_usd': ...}`). -/
structure CapexItem : Type where
  palanca : Str
  capexUsd : ℚ
  feeUsd : ℚ
deriving DecidableEq

/-- The dictionary returned by `get_capex_fee_by_palancas`. -/
structure CapexResult : Type where
  success : Bool
  error : Str
  breakdown : List CapexItem
  totalCapexUsd : ℚ
  totalFeeUsd : ℚ
deriving DecidableEq

/-- Model of `SELECT typology_id FROM typology_master WHERE typology_name = :t`
with `fetchone()`. -/
def findTypologyRow (db : SimDb) (tipologia : Str) : Option (Nat × Str) :=
  db.typologyMaster.find? (fun r => r.2 = tipologia)

/-- Model of `SELECT lever_id, lever_name FROM lever_master WHERE lever_name =
ANY(:palancas)`. -/
def leverRowsFor (db : SimDb) (palancas : List Str) : List (Nat × Str) :=
  db.leverMaster.filter (fun r => palancas.contains r.2)

/-- The joined, filtered `capex_fee` rows with their lever names, ordered
by lever name (`ORDER BY l.lever_name`). -/
def capexJoinRows (db : SimDb) (tipologiaId : Nat) (leverIds : List Nat) :
    List (Str × CapexRow) :=
  sortBy (fun a b => decide (a.1 ≤ b.1))
    ((db.capexFee.filter
      (fun c => c.typologyId = tipologiaId ∧ leverIds.contains c.leverId)).flatMap
    (fun c => (db.leverMaster.filter (fun l => l.1 = c.leverId)).map
      (fun l => (l.2, c))))

/-- Model of `UnifiedDatabaseService.get_capex_fee_by_palancas`: resolve the
typology id and the requested lever ids, fail only when the typology or
every requested lever is unknown, then itemize and total the cost rows
that exist (`float(row.capex) if row.capex else 0.0` — a NULL cost reads
as `0.0`; a lever with no cost row simply produces no line). -/
def getCapexFeeByPalancas (db : SimDb) (tipologia : Str)
    (palancas : List Str) : CapexResult :=
  match findTypologyRow db tipologia with
  | none =>
    ⟨false, "Tipología no encontrada: ".toList ++ tipologia, [], 0, 0⟩
  | some trow =>
    let leverRows := leverRowsFor db palancas
    if leverRows = [] then
      ⟨false, "No se encontraron palancas válidas".toList, [], 0, 0⟩
    else
      let leverIds := leverRows.map (·.1)
      let rows := capexJoinRows db trow.1 leverIds
      let breakdown := rows.map
        (fun r => ⟨r.1, (r.2.capex).getD 0, (r.2.fee).getD 0⟩)
      ⟨true, [], breakdown,
       (breakdown.map (·.capexUsd)).sum, (breakdown.map (·.feeUsd)).sum⟩

/-- The fixed `vol_inicial_mapping` table. -/
def volInicialMapping (tipologia : Str) : Option (List (Str × ℚ)) :=
  if tipologia = "Super e hiper".toList then
    some [("Pequeño".toList, 50), ("Mediano".toList, 100), ("Grande".toList, 150)]
  else if tipologia = "Conveniencia".toList then
    some [("Pequeño".toList, 20), ("Mediano".toList, 40), ("Grande".toList, 45)]
  else if tipologia = "Droguerías".toList then
    some [("Pequeño".toList, 10), ("Mediano".toList, 15), ("Grande".toList, 20)]
  else none

/-- The `(typology, size class)` lookup before the default is applied. -/
def volInicialLookup (tipologia tamanoTienda : Str) : Option ℚ :=
  (volInicialMapping tipologia).bind (fun m => dictFind m tamanoTienda)

/-- Model of `vol_inicial_mapping.get(tipologia, {}).get(tamano_tienda, 50)`. -/
def volInicial (tipologia tamanoTienda : Str) : ℚ :=
  (volInicialLookup tipologia tamanoTienda).getD 50

/-- The `palanca_mapping` from lever display name to OLS feature name. -/
def palancaMapping : List (Str × Str) :=
  [("Exhibición adicional mamut".toList, "exhibicion_adicional_mamut".toList),
   ("Nevera en punto de pago".toList, "nevera_en_punto_de_pago".toList),
   ("Entrepaño con comunicación".toList, "entrepano_con_comunicacion".toList),
   ("Cajero vendedor".toList, "cajero_vendedor".toList),
   ("Tienda multipalanca".toList, "tienda_multipalanca".toList),
   ("Punta de góndola".toList, "punta_de_gondola".toList),
   ("Mini vallas en fachada".toList, "mini_vallas_en_fachada".toList),
   ("Metro cuadrado".toList, "metro_cuadrado".toList),
   ("Rompe tráfico cross category".toList, "rompe_trafico_cross_category".toList)]

/-- Steps 3–4 of `calculate_simulation`: the constructed feature vector —
always-on execution checks, the user's numeric inputs
(`features.get(..., 0)`), the cold-equipment features only for
`Super e hiper`, the baseline volume constant, and one indicator per
entry of the entire lever vocabulary (0, then 1 for the selected ones;
an unknown selected name activates nothing). -/
def featureVector (tipologia : Str) (palancas : List Str)
    (tamanoTienda : Str) (features : List (Str × ℚ)) : List (Str × ℚ) :=
  let fv := [("planograma_ejecución_check".toList, (1 : ℚ)),
             ("precios_check".toList, 1), ("carga_check".toList, 1)]
  let fv := dictSet ("q_frentes".toList) (dictGetD features ("frentesPropios".toList) 0) fv
  let fv := dictSet ("q_frentes_competencia".toList)
    (dictGetD features ("frentesCompetencia".toList) 0) fv
  let fv := dictSet ("q_sku".toList) (dictGetD features ("skuPropios".toList) 0) fv
  let fv := dictSet ("q_sku_competencia".toList)
    (dictGetD features ("skuCompetencia".toList) 0) fv
  let fv :=
    if tipologia = "Super e hiper".toList then
      dictSet ("q_edf_ad_competencia".toList)
        (dictGetD features ("equiposFrioCompetencia".toList) 0)
        (dictSet ("q_edf_ad".toList) (dictGetD features ("equiposFrioPropios".toList) 0) fv)
    else fv
  let fv := dictSet ("q_cof_puertas".toList) (dictGetD features ("puertasPropias".toList) 0) fv
  let fv := dictSet ("q_cof_puertas_competencia".toList)
    (dictGetD features ("puertasCompetencia".toList) 0) fv
  let fv := dictSet ("vol_inicial".toList) (volInicial tipologia tamanoTienda) fv
  let fv := palancaMapping.foldl (fun acc p => dictSet p.2 (0 : ℚ) acc) fv
  palancas.foldl
    (fun acc name =>
      match dictFind palancaMapping name with
      | some param => dictSet param (1 : ℚ) acc
      | none => acc)
    fv

/-- Step 6's control vector: the same features with every lever indicator
forced back to 0. -/
def featureVectorControl (tipologia : Str) (palancas : List Str)
    (tamanoTienda : Str) (features : List (Str × ℚ)) : List (Str × ℚ) :=
  palancaMapping.foldl (fun acc p => dictSet p.2 (0 : ℚ) acc)
    (featureVector tipologia palancas tamanoTienda features)

/-- Model of `Intercept + Σ coefficient × feature value` over a feature vector,
with `ols_params.get(name, 0.0)` for absent coefficients. -/
def olsPredict (olsParams fv : List (Str × ℚ)) : ℚ :=
  fv.foldl (fun acc f => acc + dictGetD olsParams f.1 0 * f.2)
    (dictGetD olsParams ("Intercept".toList) 0)

/-- Step 7: `uplift_percent`, exact formula when the control prediction is
strictly positive, `0.0` otherwise. -/
def upliftPercent (predictionWith predictionControl : ℚ) : ℚ :=
  if predictionControl > 0 then
    (predictionWith - predictionControl) / predictionControl * 100
  else 0

/-- Python `round(x, d)` on the model's exact rationals: round to `d`
decimal places (halves away from the floor; the half-to-even behaviour of
binary floats differs only on exact half-boundaries, which no statement
below touches). -/
def pyRound (d : Nat) (x : ℚ) : ℚ :=
  let m : ℚ := (10 : ℚ) ^ d
  Rat.divInt (Int.fdiv (x * m + 1 / 2).num (x * m + 1 / 2).den) 1 / m

/-- The success dictionary of `calculate_simulation`. -/
structure SimOk : Type where
  uplift : ℚ
  roi : ℚ
  payback : Option ℚ
  capexBreakdown : List CapexItem
  totalCapexUsd : ℚ
  totalFeeUsd : ℚ
  totalCapexCop : ℚ
  totalFeeCop : ℚ
  predictionWithPalanca : ℚ
  predictionControl : ℚ
  volInicial : ℚ
  gananciaIncremental : ℚ
deriving DecidableEq

/-- Result of `calculate_simulation`: the success payload or the error
message of a failed lookup. -/
inductive SimResult : Type
  | ok (r : SimOk)
  | err (msg : Str)
deriving DecidableEq

/-- Model of `UnifiedDatabaseService.calculate_simulation`: OLS lookup, cost
lookup, baseline volume, the two predictions, uplift, and the financial
metrics (`payback = None` when the monthly incremental profit net of fee
is not positive; `roi = 0` when its denominator is not positive). -/
def calculateSimulation (db : SimDb) (tipologia : Str)
    (palancas : List Str) (tamanoTienda : Str)
    (features : List (Str × ℚ)) (maco exchangeRate : ℚ) : SimResult :=
  match getOlsParams db tipologia with
  | .error e => .err e
  | .ok olsParams =>
    let capexData := getCapexFeeByPalancas db tipologia palancas
    if capexData.success = false then .err capexData.error
    else
      let totalCapexCop := capexData.totalCapexUsd * exchangeRate
      let totalFeeCop := capexData.totalFeeUsd * exchangeRate
      let volIni := volInicial tipologia tamanoTienda
      let predictionWith :=
        olsPredict olsParams (featureVector tipologia palancas tamanoTienda features)
      let predictionCtl :=
        olsPredict olsParams (featureVectorControl tipologia palancas tamanoTienda features)
      let uplift := upliftPercent predictionWith predictionCtl
      let gananciaIncremental := (predictionWith - predictionCtl) * (maco / 100)
      let monthlyProfit := gananciaIncremental - totalFeeCop
      let payback : Option ℚ :=
        if monthlyProfit > 0 then some (pyRound 1 (totalCapexCop / monthlyProfit))
        else none
      let annualProfit := gananciaIncremental * 12
      let annualFee := totalFeeCop * 12
      let denominator := totalCapexCop + annualFee
      let roi :=
        if denominator > 0 then (annualProfit - annualFee - totalCapexCop) / denominator
        else 0
      .ok ⟨pyRound 2 uplift, pyRound 2 roi, payback, capexData.breakdown,
           capexData.totalCapexUsd, capexData.totalFeeUsd, totalCapexCop,
           totalFeeCop, pyRound 2 predictionWith, pyRound 2 predictionCtl,
           volIni, pyRound 2 gananciaIncremental⟩

/-! ## `UnifiedDatabaseService.get_evolution_timeline_data` — aligner

Dates are `Nat` ordinals.  The dimension-table joins of the SQL are
collapsed by storing the joined names directly on the store and fact
records (the master tables hold exactly one row per name), and the
`period_master` join by storing the period record on each fact row. -/

/-- One `store_master` row with its joined dimension names. -/
structure Store : Type where
  id : Nat
  cityId : Option Nat
  typology : Str
  lever : Str
  isActive : Bool
  startDateSellin : Option Nat
  endDateSellin : Option Nat
  startDateSellout : Option Nat
  endDateSellout : Option Nat
deriving DecidableEq

/-- One `period_master` row. -/
structure Period : Type where
  label : Str
  startDate : Nat
  endDate : Nat
deriving DecidableEq

/-- One `ab_test_result` row with its joined dimension names and period. -/
structure FactRow : Type where
  storeId : Nat
  categoryName : Str
  unitName : Str
  sourceName : Str
  period : Period
  value : ℚ
deriving DecidableEq

/-- The store data read by the aligner. -/
structure TimelineDb : Type where
  stores : List Store
  facts : List FactRow
deriving DecidableEq

/-- The start/end column pair is chosen by
`'start_date_sellin' if fuente == 'Sell In' else 'start_date_sellout'`. -/
def useSellinDates (fuente : Str) : Bool := fuente = "Sell In".toList

/-- The chosen start-date column of a store. -/
def storeStartDate (sellin : Bool) (s : Store) : Option Nat :=
  if sellin then s.startDateSellin else s.startDateSellout

/-- The chosen end-date column of a store. -/
def storeEndDate (sellin : Bool) (s : Store) : Option Nat :=
  if sellin then s.endDateSellin else s.endDateSellout

/-- The active stores of the chosen lever within the chosen typology. -/
def activeLeverStores (db : TimelineDb) (tipologia palanca : Str) :
    List Store :=
  db.stores.filter
    (fun s => s.typology = tipologia ∧ s.lever = palanca ∧ s.isActive)

/-- First-occurrence deduplication (`SELECT DISTINCT`, determinized to
input order). -/
def dedup {α : Type} [DecidableEq α] (l : List α) : List α :=
  l.foldl (fun acc x => if acc.contains x then acc else acc ++ [x]) []

/-- Query 0c: the distinct non-null city ids of the active stores carrying
the lever (only ever issued for the `Droguerías` typology). -/
def palancaCities (db : TimelineDb) (tipologia palanca : Str) : List Nat :=
  dedup ((activeLeverStores db tipologia palanca).filterMap (·.cityId))

/-- Query 0: the modal start date among the lever's active stores
(`GROUP BY start ORDER BY count DESC, start LIMIT 1` — ties broken by the
earliest date), `none` when no store has a date. -/
def projectStartDate (db : TimelineDb) (tipologia palanca : Str)
    (sellin : Bool) : Option Nat :=
  let dates := (activeLeverStores db tipologia palanca).filterMap
    (storeStartDate sellin)
  ((dedup dates).foldl
    (fun best d =>
      let c := dates.count d
      match best with
      | none => some (d, c)
      | some (b, bc) =>
        if c > bc ∨ (c = bc ∧ d < b) then some (d, c) else some (b, bc))
    none).map (·.1)

/-- Query 0b: the maximum end date among the lever's active stores. -/
def palancaEndDate (db : TimelineDb) (tipologia palanca : Str)
    (sellin : Bool) : Option Nat :=
  ((activeLeverStores db tipologia palanca).filterMap
      (storeEndDate sellin)).foldl
    (fun acc d =>
      match acc with
      | none => some d
      | some m => some (max m d))
    none

/-- Model of `is_sell_out = fuente and ('Sell Out' in fuente or 'SOM' in fuente)`. -/
def isSellOut (fuente : Str) : Bool :=
  containsSub ("Sell Out".toList) fuente || containsSub ("SOM".toList) fuente

/-- The `ab_test_result ⋈ store_master` pairs surviving the shared filter
conditions of queries 1 and 2 (source, unit, category, typology, active),
for a given lever-name condition and optional city restriction. -/
def factStorePairs (db : TimelineDb) (tipologia fuente unidad categoria
    leverName : Str) (cityFilter : Option (List Nat)) :
    List (FactRow × Store) :=
  (db.facts.flatMap
    (fun r => (db.stores.filter (fun s => s.id = r.storeId)).map
      (fun s => (r, s)))).filter
    (fun p =>
      decide (p.2.lever = leverName) && decide (p.2.typology = tipologia) &&
      decide (p.1.sourceName = fuente) && decide (p.1.unitName = unidad) &&
      decide (p.1.categoryName = categoria) && p.2.isActive &&
      (match cityFilter with
       | none => true
       | some cities =>
         match p.2.cityId with
         | some c => cities.contains c
         | none => false))

/-- Model of `AVG(r.value)` of one `GROUP BY (period_label, start_date, end_date)`
group, then `ORDER BY p.start_date` (groups in first-occurrence order,
stably sorted). -/
def groupByPeriodAvg (pairs : List (FactRow × Store)) : List (Period × ℚ) :=
  sortBy (fun a b => a.1.startDate ≤ b.1.startDate)
    ((dedup (pairs.map (·.1.period))).map
      (fun p =>
        let vs := (pairs.filter (fun q => q.1.period = p)).map (·.1.value)
        (p, vs.sum / vs.length)))

/-- Query 1: the lever series. -/
def palancaRows (db : TimelineDb) (tipologia fuente unidad categoria
    palanca : Str) : List (Period × ℚ) :=
  groupByPeriodAvg (factStorePairs db tipologia fuente unidad categoria palanca none)

/-- The joined control pairs of query 2: for `Droguerías` with a non-empty
treated-city list, control stores are restricted to those cities; every
other case uses the full in-typology `Control` set. -/
def controlPairs (db : TimelineDb) (tipologia fuente unidad categoria
    palanca : Str) : List (FactRow × Store) :=
  if tipologia = "Droguerías".toList ∧ palancaCities db tipologia palanca ≠ [] then
    factStorePairs db tipologia fuente unidad categoria ("Control".toList)
      (some (palancaCities db tipologia palanca))
  else
    factStorePairs db tipologia fuente unidad categoria ("Control".toList) none

/-- Query 2: the control series. -/
def controlRows (db : TimelineDb) (tipologia fuente unidad categoria
    palanca : Str) : List (Period × ℚ) :=
  groupByPeriodAvg (controlPairs db tipologia fuente unidad categoria palanca)

/-- The start date of the first row of the (sorted) lever series whose
mean is strictly positive (`if row.avg_value and float(row.avg_value) > 0`
— `0.0` is falsy, so the test is exactly `avg > 0`). -/
def firstPositiveDate (rows : List (Period × ℚ)) : Option Nat :=
  (rows.find? (fun r => 0 < r.2)).map (·.1.startDate)

/-- The per-period payload stored in `palanca_dict` / `control_dict`. -/
structure PeriodData : Type where
  value : ℚ
  startDate : Nat
  endDate : Nat
  displayDate : Nat
deriving DecidableEq

/-- The truncation test applied to every row of both series: only periods
from the first positive lever value onwards (none at all when there is no
positive value) and, when the lever has an end date, not starting after
it. -/
def includePeriod (firstPositive palancaEnd : Option Nat) (p : Period) :
    Bool :=
  match firstPositive with
  | none => false
  | some fp =>
    decide (fp ≤ p.startDate) &&
    (match palancaEnd with
     | none => true
     | some e => decide (p.startDate ≤ e))

/-- Build `palanca_dict` / `control_dict`: keep the truncation-surviving
rows keyed by period label, with the display date chosen per source
(`end_date` for sell-out-style sources, `start_date` otherwise).  The
`float(row.avg_value) if row.avg_value else 0.0` guard is the identity on
the group means (`0.0` maps to `0.0`). -/
def buildSeriesDict (rows : List (Period × ℚ))
    (firstPositive palancaEnd : Option Nat) (sellOut : Bool) :
    List (Str × PeriodData) :=
  rows.foldl
    (fun acc r =>
      if includePeriod firstPositive palancaEnd r.1 then
        dictSet r.1.label
          ⟨r.2, r.1.startDate, r.1.endDate,
           if sellOut then r.1.endDate else r.1.startDate⟩ acc
      else acc)
    []

/-- The union dict `all_periods`: every lever entry, then each control
entry whose label is not already present. -/
def allPeriods (palancaDict controlDict : List (Str × PeriodData)) :
    List (Str × PeriodData) :=
  palancaDict ++
    controlDict.filter (fun kv => (dictFind palancaDict kv.1).isNone)

/-- One emitted timeline point (without the locale-formatted date
string). -/
structure TimelineEntry : Type where
  period : Str
  startDate : Nat
  displayDate : Nat
  palancaValue : Option ℚ
  controlValue : Option ℚ
deriving DecidableEq

/-- The emitted sequence: union periods sorted by start date, each with
the (nullable) lever and control values looked up by label. -/
def timelineData (palancaDict controlDict : List (Str × PeriodData)) :
    List TimelineEntry :=
  (sortBy (fun a b => a.2.startDate ≤ b.2.startDate)
      (allPeriods palancaDict controlDict)).map
    (fun kv =>
      ⟨kv.1, kv.2.startDate, kv.2.displayDate,
       (dictFind palancaDict kv.1).map (·.value),
       (dictFind controlDict kv.1).map (·.value)⟩)

/-- The sell-out re-mapping of the anchor-date marker: the display date of
the first emitted period containing the anchor, when one exists. -/
def projectStartDisplay (sellOut : Bool) (projectStart : Option Nat)
    (timeline : List TimelineEntry) : Option Nat :=
  match projectStart with
  | none => none
  | some d =>
    if sellOut ∧ timeline ≠ [] then
      match timeline.find? (fun e => e.startDate ≤ d ∧ d ≤ e.displayDate) with
      | some e => some e.displayDate
      | none => some d
    else some d

/-- Result of `get_evolution_timeline_data`: the structured missing-filter
failure, or the successful payload. -/
inductive TimelineResult : Type
  | missing (missingFilters : List Str)
  | ok (data : List TimelineEntry) (projectStart : Option Nat)
       (projectStartDisp : Option Nat) (palancaEnd : Option Nat)
deriving DecidableEq

/-- A filter argument is missing when it is `None` or empty
(`if not tipologia: ...`). -/
def filterMissing : Option Str → Bool
  | none => true
  | some s => s = []

/-- The `missing_filters` list, in the checking order of the source. -/
def missingFilterList (tipologia fuente unidad categoria palanca :
    Option Str) : List Str :=
  (if filterMissing tipologia then ["Tipología".toList] else []) ++
  (if filterMissing fuente then ["Fuente de Datos".toList] else []) ++
  (if filterMissing unidad then ["Unidad de Medida".toList] else []) ++
  (if filterMissing categoria then ["Categoría".toList] else []) ++
  (if filterMissing palanca then ["Palanca".toList] else [])

/-- Model of `UnifiedDatabaseService.get_evolution_timeline_data`: fail fast with
the structured missing-filter result before touching the store, otherwise
run the anchor/end-date queries, both series, the truncation, the union
and the sort. -/
def getEvolutionTimelineData (db : TimelineDb)
    (tipologia fuente unidad categoria palanca : Option Str) :
    TimelineResult :=
  let missing := missingFilterList tipologia fuente unidad categoria palanca
  if missing ≠ [] then .missing missing
  else
    let tip := tipologia.getD []
    let fue := fuente.getD []
    let uni := unidad.getD []
    let cat := categoria.getD []
    let pal := palanca.getD []
    let sellin := useSellinDates fue
    let sellOut := isSellOut fue
    let projStart := projectStartDate db tip pal sellin
    let palEnd := palancaEndDate db tip pal sellin
    let pRows := palancaRows db tip fue uni cat pal
    let cRows := controlRows db tip fue uni cat pal
    let firstPos := firstPositiveDate pRows
    let palancaDict := buildSeriesDict pRows firstPos palEnd sellOut
    let controlDict := buildSeriesDict cRows firstPos palEnd sellOut
    let tl := timelineData palancaDict controlDict
    .ok tl projStart (projectStartDisplay sellOut projStart tl) palEnd

/-! ## Helper lemmas -/

theorem dictFind_dictSet_self {α β : Type} [DecidableEq α] (k : α) (v : β)
    (l : List (α × β)) : dictFind (dictSet k v l) k = some v := by
  induction l with
  | nil => simp [dictSet, dictFind, List.find?]
  | cons hd tl ih =>
    cases hd with
    | mk k' v' =>
      by_cases hk : k' = k
      · simp [dictSet, hk, dictFind, List.find?]
      · calc dictFind (dictSet k v ((k', v') :: tl)) k
            = dictFind ((k', v') :: dictSet k v tl) k := by simp [dictSet, hk]
          _ = dictFind (dictSet k v tl) k := by simp [dictFind, List.find?, hk]
          _ = some v := ih

theorem mem_dictSet {α β : Type} [DecidableEq α] {k : α} {v : β}
    {l : List (α × β)} {x : α × β} (hx : x ∈ dictSet k v l) :
    x = (k, v) ∨ x ∈ l := by
  induction l with
  | nil => simpa [dictSet] using hx
  | cons hd tl ih =>
    cases hd with
    | mk k' v' =>
      by_cases hk : k' = k
      · simp [dictSet, hk] at hx
        rcases hx with h | h
        · exact Or.inl (by simp [h])
        · exact Or.inr (List.mem_cons_of_mem _ h)
      · simp [dictSet, hk] at hx
        rcases hx with h | h
        · exact Or.inr (by simp [h])
        · rcases ih h with h' | h'
          · exact Or.inl h'
          · exact Or.inr (List.mem_cons_of_mem _ h')

/-! ## Claim C8 — result-cache round trip, expiry, replacement -/

/-- C8: after `set(q, r)`, a `get(q')` with the same normalized key
performed strictly before the entry's TTL has elapsed returns the stored
success flag, rows, columns and row count unchanged, marked as a cache
hit and stamped with the insertion time; a `get` performed strictly after
expiry returns a miss; and a second `set` under the same normalized key
replaces the stored entry entirely. -/
theorem C8_cache_roundtrip (c : QueryCache) (now t1 t2 now2 : Nat)
    (q q' : Str) (r r2 : ExecResult) (ttl ttl2 : Option Nat)
    (hq : getCacheKey q' = getCacheKey q) :
    (t1 < now + resolveTtl ttl c.defaultTtl →
      (cacheGet (cacheSet c now q r ttl) t1 q').fst =
        some ⟨r.success, r.data, r.columns, r.rowCount, true, now⟩) ∧
    (t2 > now + resolveTtl ttl c.defaultTtl →
      (cacheGet (cacheSet c now q r ttl) t2 q').fst = none) ∧
    dictFind (cacheSet (cacheSet c now q r ttl) now2 q' r2 ttl2).cache
        (getCacheKey q) =
      some ⟨q', r2, now2, now2 + resolveTtl ttl2 c.defaultTtl⟩ := by
  refine ⟨?_, ?_, ?_⟩
  · intro hfresh
    have hnot : ¬ (t1 > now + resolveTtl ttl c.defaultTtl) := by omega
    simp [cacheGet, cacheSet, hq, dictFind_dictSet_self, hnot]
  · intro hexp
    simp [cacheGet, cacheSet, hq, dictFind_dictSet_self, hexp]
  · simp [cacheSet, hq, dictFind_dictSet_self]

/-- Concrete instantiation of `C8_cache_roundtrip`: the cached query
`"  SELECT 1 "` is re-requested as `"select 1"` with the default TTL of
300 at times 100 (hit) and 401 (miss), then overwritten. -/
theorem C8_cache_roundtrip_witness :
    getCacheKey ("select 1".toList) = getCacheKey ("  SELECT 1 ".toList) ∧
    ((100 < 0 + resolveTtl none QueryCache.init.defaultTtl →
      (cacheGet (cacheSet QueryCache.init 0 ("  SELECT 1 ".toList)
          ⟨true, [[(.str ("n".toList), .int 7)]], ["n".toList], 1, []⟩ none)
        100 ("select 1".toList)).fst =
        some ⟨true, [[(.str ("n".toList), .int 7)]], ["n".toList], 1, true, 0⟩) ∧
    (401 > 0 + resolveTtl none QueryCache.init.defaultTtl →
      (cacheGet (cacheSet QueryCache.init 0 ("  SELECT 1 ".toList)
          ⟨true, [[(.str ("n".toList), .int 7)]], ["n".toList], 1, []⟩ none)
        401 ("select 1".toList)).fst = none) ∧
    dictFind (cacheSet (cacheSet QueryCache.init 0 ("  SELECT 1 ".toList)
          ⟨true, [[(.str ("n".toList), .int 7)]], ["n".toList], 1, []⟩ none)
        500 ("select 1".toList) ⟨false, [], [], 0, "boom".toList⟩ (some 60)).cache
        (getCacheKey ("  SELECT 1 ".toList)) =
      some ⟨"select 1".toList, ⟨false, [], [], 0, "boom".toList⟩, 500, 560⟩) :=
  ⟨by decide,
   C8_cache_roundtrip QueryCache.init 0 100 401 500 ("  SELECT 1 ".toList)
     "select 1".toList
     ⟨true, [[(.str ("n".toList), .int 7)]], ["n".toList], 1, []⟩
     ⟨false, [], [], 0, "boom".toList⟩ none (some 60) (by decide)⟩

/-! ## Claim C10 — marker without a complete block keeps the draft -/

/-- C10: when the draft contains the `"```sql"` opening marker but no
complete fenced block can be extracted, the draft is returned unmodified
and appended to the conversation history exactly as in the
no-query-block case: no query execution, no reformulation call, and no
no-data narrative call happen. -/
theorem C10_incomplete_block_keeps_draft (memory : List Msg)
    (userMessage draft : Str) (execQuery : Str → ExecResult)
    (reformOracle noDataOracle : Option Str)
    (h1 : containsSub sqlMarker draft = true)
    (h2 : extractFirstSqlBlock draft = none) :
    getResponse memory userMessage draft execQuery reformOracle noDataOracle =
      ⟨draft,
       addMessage (addMessage memory ⟨"user".toList, userMessage⟩)
         ⟨"assistant".toList, draft⟩,
       [], 0, 0⟩ := by
  simp [getResponse, executeSqlFromResponse, h1, h2]

/-- Concrete instantiation of `C10_incomplete_block_keeps_draft`: a draft
whose `"```sql"` block is never closed. -/
theorem C10_incomplete_block_keeps_draft_witness :
    containsSub sqlMarker ("Claro: ```sql SELECT 1;".toList) = true ∧
    extractFirstSqlBlock ("Claro: ```sql SELECT 1;".toList) = none ∧
    getResponse [] ("hola".toList) ("Claro: ```sql SELECT 1;".toList)
        (fun _ => ⟨false, [], [], 0, "err".toList⟩) none none =
      ⟨"Claro: ```sql SELECT 1;".toList,
       [⟨"user".toList, "hola".toList⟩,
        ⟨"assistant".toList, "Claro: ```sql SELECT 1;".toList⟩],
       [], 0, 0⟩ :=
  ⟨by decide, by decide,
   C10_incomplete_block_keeps_draft [] ("hola".toList)
     "Claro: ```sql SELECT 1;".toList
     (fun _ => ⟨false, [], [], 0, "err".toList⟩) none none
     (by decide) (by decide)⟩

/-! ## Claim C3 — the cache is not consulted before execution -/

/-- A two-row success result for the executor in the C3 scenario. -/
def c3ExecResult : ExecResult :=
  ⟨true, [[(.str ("a".toList), .int 1)], [(.str ("a".toList), .int 2)]],
   ["a".toList], 2, []⟩

/-- A cache state holding, from time 0 with the default TTL of 300, a
five-row entry under the normalized text of the query the draft embeds. -/
def c3Cache : QueryCache :=
  cacheSet QueryCache.init 0 ("select a from t".toList)
    ⟨true, [[(.str ("a".toList), .int 9)], [(.str ("a".toList), .int 9)],
            [(.str ("a".toList), .int 9)], [(.str ("a".toList), .int 9)],
            [(.str ("a".toList), .int 9)]], ["a".toList], 5, []⟩ none

/-- The draft answer embedding the query. -/
def c3Draft : Str :=
  "```sql\nSELECT a FROM t\n```Estos son los datos.".toList

/-- C3 fails on the code: at time 10 the cache holds a non-expired entry
under the normalized text of the extracted query, yet the turn still
invokes the query executor (the chatbot's `_execute_sql_from_response`
performs no cache lookup at all — the only cache read happens later, in
`ChatbotService._parse_response`, and nothing ever writes query results to
the cache). -/
theorem C3_counterexample :
    (cacheGet c3Cache 10 ("SELECT a FROM t".toList)).fst.isSome = true ∧
    (getResponse [] ("pregunta".toList) c3Draft (fun _ => c3ExecResult)
        (some ("Respuesta reformulada.".toList)) none).executedQueries =
      ["SELECT a FROM t".toList] := by
  constructor
  · decide
  · decide

/-- C3 amended: for every turn whose draft contains the (case-sensitive)
`"```sql"` marker and yields a complete extracted query block, the query
executor is invoked exactly once, with exactly the stripped extracted
query — independent of any cache state, which `get_response` never
consults. -/
theorem C3_amended_executor_always_runs (memory : List Msg)
    (userMessage draft raw : Str) (execQuery : Str → ExecResult)
    (reformOracle noDataOracle : Option Str)
    (h1 : containsSub sqlMarker draft = true)
    (h2 : extractFirstSqlBlock draft = some raw) :
    (getResponse memory userMessage draft execQuery reformOracle
        noDataOracle).executedQueries = [pyStrip raw] := by
  have hexec : (executeSqlFromResponse draft execQuery reformOracle
      noDataOracle).executedQueries = [pyStrip raw] := by
    simp only [executeSqlFromResponse, h2]
    split
    · split
      · split <;> rfl
      · rfl
    · rfl
  simp only [getResponse, h1, if_true]
  split
  · simpa using hexec
  · simpa using hexec

/-- Concrete instantiation of `C3_amended_executor_always_runs` in the
scenario of `C3_counterexample`. -/
theorem C3_amended_executor_always_runs_witness :
    containsSub sqlMarker c3Draft = true ∧
    extractFirstSqlBlock c3Draft = some ("SELECT a FROM t".toList) ∧
    (getResponse [] ("pregunta".toList) c3Draft (fun _ => c3ExecResult)
        (some ("Respuesta reformulada.".toList)) none).executedQueries =
      [pyStrip ("SELECT a FROM t".toList)] :=
  ⟨by decide, by decide,
   C3_amended_executor_always_runs [] ("pregunta".toList) c3Draft
     "SELECT a FROM t".toList (fun _ => c3ExecResult)
     (some ("Respuesta reformulada.".toList)) none (by decide) (by decide)⟩

/-! ## Claim C7 — the deterministic reformulation fallback -/

/-- The executor of the C7 scenario: one row with one (string-keyed)
column, as `pandas.DataFrame.to_dict('records')` produces. -/
def c7ExecResult : ExecResult :=
  ⟨true, [[(.str ("total".toList), .int 8)]], ["total".toList], 1, []⟩

/-- The draft of the C7 scenario, with the `X` placeholder of the prompt
template. -/
def c7Draft : Str :=
  ("```sql\nSELECT COUNT(*) as total FROM pdvs;\n```\n" ++
   "Basado en nuestros registros, tenemos X puntos de venta.").toList

/-- C7: the code contradicts the claim at its own single-scalar path.
With a successful one-row/one-column result and a failed reformulation
call, the fallback executes `data[0][0]` — an integer-keyed access into a
string-keyed row dict — so it raises `KeyError(0)` instead of
substituting the value for the placeholder; the exception escapes to the
top-level handler, the user receives the generic
`"Error al generar respuesta: 0"` answer (with the placeholder never
substituted) and the assistant turn is not even recorded.  The multi-row
branch of the same fallback works as specified. -/
theorem C7_scalar_fallback_raises :
    getResponse [] ("¿Cuántos puntos de venta tenemos?".toList) c7Draft
        (fun _ => c7ExecResult) none none =
      ⟨"Error al generar respuesta: 0".toList,
       [⟨"user".toList, "¿Cuántos puntos de venta tenemos?".toList⟩],
       ["SELECT COUNT(*) as total FROM pdvs;".toList], 1, 0⟩ ∧
    (getResponse [] ("¿Cuántos puntos de venta tenemos?".toList) c7Draft
        (fun _ => c7ExecResult) none none).answer ≠
      pyReplaceChar 'X' (pyStrVal (.int 8))
        (pyStrip (removeSqlBlocks c7Draft)) := by
  constructor
  · decide
  · decide

/-! ## Claim C1 — the uplift percentage of `calculate_simulation` -/

/-- The `uplift` field of a successful simulation, `none` on failure. -/
def simUpliftVal : SimResult → Option ℚ
  | .ok r => some r.uplift
  | .err _ => none

/-- A minimal simulation database: one typology, one lever with a cost
row, and an OLS model with intercept 3 and lever coefficient 1, so the
two predictions are 4 and 3 and the exact uplift is 100/3 %. -/
def c1Db : SimDb :=
  { olsSuperHiper := [], olsDrogas := [],
    olsConveniencia := [("Intercept".toList, 3), ("punta_de_gondola".toList, 1)],
    typologyMaster := [(1, "Conveniencia".toList)],
    leverMaster := [(1, "Punta de góndola".toList)],
    capexFee := [⟨1, 1, some 100, some 10⟩] }

/-- C1 fails on the code as literally stated: the returned `uplift` field
is `round(uplift_percent, 2)`, so for predictions 4 and 3 it is 33.33,
not the exact `(4 − 3) / 3 × 100 = 100/3`. -/
theorem C1_counterexample :
    simUpliftVal (calculateSimulation c1Db ("Conveniencia".toList)
        ["Punta de góndola".toList] ("Mediano".toList) [] 35 1) =
      some (3333 / 100) ∧
    (3333 / 100 : ℚ) ≠
      (olsPredict (buildParamDict c1Db.olsConveniencia)
          (featureVector ("Conveniencia".toList) ["Punta de góndola".toList]
            "Mediano".toList []) -
        olsPredict (buildParamDict c1Db.olsConveniencia)
          (featureVectorControl ("Conveniencia".toList)
            ["Punta de góndola".toList] ("Mediano".toList) [])) /
      olsPredict (buildParamDict c1Db.olsConveniencia)
        (featureVectorControl ("Conveniencia".toList)
          ["Punta de góndola".toList] ("Mediano".toList) []) * 100 := by
  constructor
  · norm_num +decide [calculateSimulation, getOlsParams, buildParamDict,
      getCapexFeeByPalancas, findTypologyRow, leverRowsFor, capexJoinRows,
      sortBy, insertSorted, featureVector, featureVectorControl, olsPredict,
      upliftPercent, pyRound, volInicial, volInicialLookup, volInicialMapping,
      palancaMapping, dictSet, dictFind, dictGetD, dedup, c1Db, simUpliftVal,
      List.find?]
    norm_num [show Int.fdiv 20003 6 = 3333 from by decide]
  · norm_num +decide [buildParamDict, featureVector, featureVectorControl,
      olsPredict, volInicial, volInicialLookup, volInicialMapping,
      palancaMapping, dictSet, dictFind, dictGetD, c1Db, List.find?]

/-- C1 amended: for every simulate call that succeeds, the returned
uplift percentage is the 2-decimal rounding of
`(with − without) / without × 100` whenever the without-treatment
prediction is strictly positive, and is exactly 0 whenever the
without-treatment prediction is ≤ 0, for any database, feature
configuration, margin and exchange rate. -/
theorem C1_uplift_formula (db : SimDb) (tipologia : Str)
    (palancas : List Str) (tamanoTienda : Str)
    (features : List (Str × ℚ)) (maco exchangeRate : ℚ) (r : SimOk)
    (h : calculateSimulation db tipologia palancas tamanoTienda features
        maco exchangeRate = .ok r) :
    ∃ params, getOlsParams db tipologia = .ok params ∧
      (0 < olsPredict params
          (featureVectorControl tipologia palancas tamanoTienda features) →
        r.uplift = pyRound 2
          ((olsPredict params
              (featureVector tipologia palancas tamanoTienda features) -
            olsPredict params
              (featureVectorControl tipologia palancas tamanoTienda features)) /
           olsPredict params
             (featureVectorControl tipologia palancas tamanoTienda features) *
           100)) ∧
      (olsPredict params
          (featureVectorControl tipologia palancas tamanoTienda features) ≤ 0 →
        r.uplift = 0) := by
  cases hps : getOlsParams db tipologia with
  | error e => simp [calculateSimulation, hps] at h
  | ok params =>
    cases hcs : (getCapexFeeByPalancas db tipologia palancas).success with
    | false => simp [calculateSimulation, hps, hcs] at h
    | true =>
      simp only [calculateSimulation, hps, hcs] at h
      rw [if_neg (by simp)] at h
      injection h with h'
      subst h'
      refine ⟨params, rfl, ?_, ?_⟩
      · intro hpos
        simp [upliftPercent, hpos]
      · intro hle
        have hnpos : ¬ (0 < olsPredict params
            (featureVectorControl tipologia palancas tamanoTienda features)) :=
          not_lt.mpr hle
        simp only [upliftPercent, hnpos, if_false]
        with_unfolding_all decide

theorem c1SimEval :
    calculateSimulation c1Db ("Conveniencia".toList)
        ["Punta de góndola".toList] ("Mediano".toList) [] 35 1 =
      .ok ⟨3333 / 100, -49 / 50, none,
           [⟨"Punta de góndola".toList, 100, 10⟩], 100, 10, 100, 10,
           4, 3, 40, 7 / 20⟩ := by
  norm_num +decide [calculateSimulation, getOlsParams, buildParamDict,
    getCapexFeeByPalancas, findTypologyRow, leverRowsFor, capexJoinRows,
    sortBy, insertSorted, featureVector, featureVectorControl, olsPredict,
    upliftPercent, pyRound, volInicial, volInicialLookup, volInicialMapping,
    palancaMapping, dictSet, dictFind, dictGetD, dedup, c1Db, List.find?]
  norm_num [show Int.fdiv 20003 6 = 3333 from by decide,
    show Int.fdiv (-2147) 22 = -98 from by decide,
    show Int.fdiv 71 2 = 35 from by decide,
    show Int.fdiv 801 2 = 400 from by decide,
    show Int.fdiv 601 2 = 300 from by decide]

/-- Concrete instantiation of `C1_uplift_formula` on `c1Db` (control
prediction 3 > 0, uplift 33.33). -/
theorem C1_uplift_formula_witness :
    calculateSimulation c1Db ("Conveniencia".toList)
        ["Punta de góndola".toList] ("Mediano".toList) [] 35 1 =
      .ok ⟨3333 / 100, -49 / 50, none,
           [⟨"Punta de góndola".toList, 100, 10⟩], 100, 10, 100, 10,
           4, 3, 40, 7 / 20⟩ ∧
    (∃ params, getOlsParams c1Db ("Conveniencia".toList) = .ok params ∧
      (0 < olsPredict params
          (featureVectorControl ("Conveniencia".toList)
            ["Punta de góndola".toList] ("Mediano".toList) []) →
        (⟨3333 / 100, -49 / 50, none,
          [⟨"Punta de góndola".toList, 100, 10⟩], 100, 10, 100, 10,
          4, 3, 40, 7 / 20⟩ : SimOk).uplift = pyRound 2
          ((olsPredict params
              (featureVector ("Conveniencia".toList)
                ["Punta de góndola".toList] ("Mediano".toList) []) -
            olsPredict params
              (featureVectorControl ("Conveniencia".toList)
                ["Punta de góndola".toList] ("Mediano".toList) [])) /
           olsPredict params
             (featureVectorControl ("Conveniencia".toList)
               ["Punta de góndola".toList] ("Mediano".toList) []) * 100)) ∧
      (olsPredict params
          (featureVectorControl ("Conveniencia".toList)
            ["Punta de góndola".toList] ("Mediano".toList) []) ≤ 0 →
        (⟨3333 / 100, -49 / 50, none,
          [⟨"Punta de góndola".toList, 100, 10⟩], 100, 10, 100, 10,
          4, 3, 40, 7 / 20⟩ : SimOk).uplift = 0)) :=
  ⟨c1SimEval,
   C1_uplift_formula c1Db ("Conveniencia".toList) ["Punta de góndola".toList]
     "Mediano".toList [] 35 1 _ c1SimEval⟩

/-! ## Claim C2 — missing cost rows do not fail the simulation -/

/-- A database in which the requested lever `B` exists in `lever_master`
but has no `capex_fee` row for the typology (lever `A` has one). -/
def c2Db : SimDb :=
  { olsSuperHiper := [], olsDrogas := [],
    olsConveniencia := [("Intercept".toList, 3)],
    typologyMaster := [(1, "Conveniencia".toList)],
    leverMaster := [(1, "A".toList), (2, "B".toList)],
    capexFee := [⟨1, 1, some 100, some 10⟩] }

/-- Whether a simulation result is the success payload. -/
def simIsOk : SimResult → Bool
  | .ok _ => true
  | .err _ => false

/-- C2 fails on the code: requesting levers `A` and `B` where `B` has no
cost row for the typology does **not** produce a not-found failure — the
cost lookup succeeds with `B` silently omitted from the breakdown (so it
contributes zero capital expenditure and zero fee to the totals), and the
full simulate call still returns a success result. -/
theorem C2_counterexample :
    getCapexFeeByPalancas c2Db ("Conveniencia".toList)
        ["A".toList, "B".toList] =
      ⟨true, [], [⟨"A".toList, 100, 10⟩], 100, 10⟩ ∧
    simIsOk (calculateSimulation c2Db ("Conveniencia".toList)
        ["A".toList, "B".toList] ("Mediano".toList) [] 35 1) = true := by
  constructor
  · with_unfolding_all decide
  · norm_num +decide [calculateSimulation, getOlsParams, buildParamDict,
      getCapexFeeByPalancas, findTypologyRow, leverRowsFor, capexJoinRows,
      sortBy, insertSorted, featureVector, featureVectorControl, olsPredict,
      upliftPercent, pyRound, volInicial, volInicialLookup, volInicialMapping,
      palancaMapping, dictSet, dictFind, dictGetD, dedup, c2Db, simIsOk,
      List.find?]

/-- C2 amended: the cost lookup fails only when the typology is unknown
or none of the requested levers exists in the lever master; otherwise it
succeeds, and every line of its breakdown is backed by an actual cost row
of the store — a requested lever without a cost row simply produces no
line (and therefore silently contributes zero to the returned totals). -/
theorem C2_missing_cost_row_semantics (db : SimDb) (tipologia : Str)
    (palancas : List Str) (trow : Nat × Str)
    (h1 : findTypologyRow db tipologia = some trow)
    (h2 : leverRowsFor db palancas ≠ []) :
    (getCapexFeeByPalancas db tipologia palancas).success = true ∧
    ∀ it ∈ (getCapexFeeByPalancas db tipologia palancas).breakdown,
      ∃ l ∈ db.leverMaster, ∃ c ∈ db.capexFee,
        it.palanca = l.2 ∧ c.leverId = l.1 ∧ c.typologyId = trow.1 ∧
        it.capexUsd = c.capex.getD 0 ∧ it.feeUsd = c.fee.getD 0 := by
  have hmem : ∀ {x : Str × CapexRow} {le : (Str × CapexRow) →
      (Str × CapexRow) → Bool} {l : List (Str × CapexRow)},
      x ∈ sortBy le l → x ∈ l := by
    intro x le l
    have step : ∀ (y : Str × CapexRow) (acc : List (Str × CapexRow)),
        x ∈ insertSorted le y acc → x = y ∨ x ∈ acc := by
      intro y acc
      induction acc with
      | nil => intro hx; simpa [insertSorted] using hx
      | cons a t ih =>
        intro hx
        simp only [insertSorted] at hx
        by_cases hc : le y a = true
        · simp [hc] at hx
          rcases hx with h | h | h
          · exact Or.inl h
          · exact Or.inr (by simp [h])
          · exact Or.inr (List.mem_cons_of_mem _ h)
        · simp [hc] at hx
          rcases hx with h | h
          · exact Or.inr (by simp [h])
          · rcases ih h with h' | h'
            · exact Or.inl h'
            · exact Or.inr (List.mem_cons_of_mem _ h')
    induction l with
    | nil => intro hx; simp [sortBy] at hx
    | cons a t ih =>
      intro hx
      simp only [sortBy, List.foldr_cons] at hx
      rcases step a _ hx with h | h
      · simp [h]
      · exact List.mem_cons_of_mem _ (ih (by simpa [sortBy] using h))
  constructor
  · simp [getCapexFeeByPalancas, h1, h2]
  · intro it hit
    simp only [getCapexFeeByPalancas, h1, h2] at hit
    rw [if_neg not_false] at hit
    simp only [List.mem_map] at hit
    obtain ⟨r, hr, hit⟩ := hit
    have hr' := hmem hr
    simp only [capexJoinRows] at hr' ⊢
    rw [List.mem_flatMap] at hr'
    obtain ⟨c, hc, hrc⟩ := hr'
    rw [List.mem_map] at hrc
    obtain ⟨l, hl, hlr⟩ := hrc
    rw [List.mem_filter] at hc hl
    refine ⟨l, hl.1, c, hc.1, ?_⟩
    have hlv : l.1 = c.leverId := by simpa using hl.2
    have hcond : c.typologyId = trow.1 ∧
        (List.map (fun x => x.1) (leverRowsFor db palancas)).contains
          c.leverId = true := by simpa using hc.2
    subst hlr
    subst hit
    exact ⟨rfl, hlv.symm, hcond.1, rfl, rfl⟩


/-- Concrete instantiation of `C2_missing_cost_row_semantics` on the
database of the counterexample. -/
theorem C2_missing_cost_row_semantics_witness :
    findTypologyRow c2Db ("Conveniencia".toList) =
      some (1, "Conveniencia".toList) ∧
    leverRowsFor c2Db ["A".toList, "B".toList] ≠ [] ∧
    ((getCapexFeeByPalancas c2Db ("Conveniencia".toList)
        ["A".toList, "B".toList]).success = true ∧
     ∀ it ∈ (getCapexFeeByPalancas c2Db ("Conveniencia".toList)
        ["A".toList, "B".toList]).breakdown,
      ∃ l ∈ c2Db.leverMaster, ∃ c ∈ c2Db.capexFee,
        it.palanca = l.2 ∧ c.leverId = l.1 ∧ c.typologyId = 1 ∧
        it.capexUsd = c.capex.getD 0 ∧ it.feeUsd = c.fee.getD 0) :=
  ⟨by decide, by decide,
   C2_missing_cost_row_semantics c2Db ("Conveniencia".toList)
     ["A".toList, "B".toList] (1, "Conveniencia".toList)
     (by decide) (by decide)⟩

/-! ## Claim C9 — unknown store-size classes default the baseline to 50 -/

/-- C9: when the OLS and cost lookups succeed, a `(typology, size class)`
pair that is absent from the fixed `vol_inicial_mapping` table — any
unrecognized size-class string included — is not rejected: the baseline
volume constant silently defaults to 50 and a success result is
returned. -/
theorem C9_vol_inicial_defaults (db : SimDb) (tipologia : Str)
    (palancas : List Str) (tamanoTienda : Str)
    (features : List (Str × ℚ)) (maco exchangeRate : ℚ)
    (params : List (Str × ℚ))
    (h1 : getOlsParams db tipologia = .ok params)
    (h2 : (getCapexFeeByPalancas db tipologia palancas).success = true)
    (h3 : volInicialLookup tipologia tamanoTienda = none) :
    ∃ r, calculateSimulation db tipologia palancas tamanoTienda features
        maco exchangeRate = .ok r ∧ r.volInicial = 50 := by
  simp only [calculateSimulation, h1]
  rw [if_neg (by simp [h2])]
  exact ⟨_, rfl, by simp [volInicial, h3]⟩

/-- Concrete instantiation of `C9_vol_inicial_defaults`: size class
`"Gigante"` is not in the table for `"Conveniencia"`. -/
theorem C9_vol_inicial_defaults_witness :
    getOlsParams c1Db ("Conveniencia".toList) =
      .ok [("Intercept".toList, 3), ("punta_de_gondola".toList, 1)] ∧
    (getCapexFeeByPalancas c1Db ("Conveniencia".toList)
        ["Punta de góndola".toList]).success = true ∧
    volInicialLookup ("Conveniencia".toList) ("Gigante".toList) = none ∧
    (∃ r, calculateSimulation c1Db ("Conveniencia".toList)
        ["Punta de góndola".toList] ("Gigante".toList) [] 35 1 = .ok r ∧
      r.volInicial = 50) :=
  ⟨by decide, by with_unfolding_all decide, by decide,
   C9_vol_inicial_defaults c1Db ("Conveniencia".toList)
     ["Punta de góndola".toList] ("Gigante".toList) [] 35 1
     [("Intercept".toList, 3), ("punta_de_gondola".toList, 1)]
     (by decide) (by with_unfolding_all decide) (by decide)⟩

/-! ## Timeline helper lemmas -/

theorem mem_insertSorted {α : Type} {le : α → α → Bool} {x y : α}
    {l : List α} (h : x ∈ insertSorted le y l) : x = y ∨ x ∈ l := by
  induction l with
  | nil => simpa [insertSorted] using h
  | cons a t ih =>
    simp only [insertSorted] at h
    by_cases hc : le y a = true
    · simp [hc] at h
      rcases h with h | h | h
      · exact Or.inl h
      · exact Or.inr (by simp [h])
      · exact Or.inr (List.mem_cons_of_mem _ h)
    · simp [hc] at h
      rcases h with h | h
      · exact Or.inr (by simp [h])
      · rcases ih h with h' | h'
        · exact Or.inl h'
        · exact Or.inr (List.mem_cons_of_mem _ h')

theorem mem_sortBy {α : Type} {le : α → α → Bool} {x : α} {l : List α}
    (h : x ∈ sortBy le l) : x ∈ l := by
  induction l with
  | nil => simp [sortBy] at h
  | cons a t ih =>
    simp only [sortBy, List.foldr_cons] at h
    rcases mem_insertSorted h with h' | h'
    · simp [h']
    · exact List.mem_cons_of_mem _ (ih (by simpa [sortBy] using h'))

theorem includePeriod_spec {firstPositive palancaEnd : Option Nat}
    {p : Period} (h : includePeriod firstPositive palancaEnd p = true) :
    ∃ fp, firstPositive = some fp ∧ fp ≤ p.startDate ∧
      ∀ d, palancaEnd = some d → p.startDate ≤ d := by
  cases firstPositive with
  | none => simp [includePeriod] at h
  | some fp =>
    refine ⟨fp, rfl, ?_, ?_⟩
    · simp only [includePeriod, Bool.and_eq_true, decide_eq_true_eq] at h
      exact h.1
    · intro d hd
      subst hd
      simp only [includePeriod, Bool.and_eq_true, decide_eq_true_eq] at h
      exact h.2

theorem mem_buildSeriesDict {rows : List (Period × ℚ)}
    {firstPositive palancaEnd : Option Nat} {sellOut : Bool}
    {kv : Str × PeriodData}
    (h : kv ∈ buildSeriesDict rows firstPositive palancaEnd sellOut) :
    ∃ fp, firstPositive = some fp ∧ fp ≤ kv.2.startDate ∧
      ∀ d, palancaEnd = some d → kv.2.startDate ≤ d := by
  have main : ∀ (rs : List (Period × ℚ)) (acc : List (Str × PeriodData)),
      (∀ kv' ∈ acc, ∃ fp, firstPositive = some fp ∧ fp ≤ kv'.2.startDate ∧
        ∀ d, palancaEnd = some d → kv'.2.startDate ≤ d) →
      ∀ kv' ∈ rs.foldl
        (fun acc r =>
          if includePeriod firstPositive palancaEnd r.1 then
            dictSet r.1.label
              ⟨r.2, r.1.startDate, r.1.endDate,
               if sellOut then r.1.endDate else r.1.startDate⟩ acc
          else acc)
        acc,
      ∃ fp, firstPositive = some fp ∧ fp ≤ kv'.2.startDate ∧
        ∀ d, palancaEnd = some d → kv'.2.startDate ≤ d := by
    intro rs
    induction rs with
    | nil => intro acc hacc kv' hkv'; exact hacc kv' hkv'
    | cons r t ih =>
      intro acc hacc kv' hkv'
      simp only [List.foldl_cons] at hkv'
      by_cases hinc : includePeriod firstPositive palancaEnd r.1 = true
      · refine ih _ ?_ kv' (by simpa [hinc] using hkv')
        intro kv'' hkv''
        rcases mem_dictSet hkv'' with h' | h'
        · obtain ⟨fp, hfp, hle, hend⟩ := includePeriod_spec hinc
          exact ⟨fp, hfp, by simpa [h'] using hle,
                 fun d hd => by simpa [h'] using hend d hd⟩
        · exact hacc kv'' h'
      · exact ih _ hacc kv' (by simpa [hinc] using hkv')
  exact main rows [] (by simp) kv (by simpa [buildSeriesDict] using h)

/-! ## Claim C4 — truncation of the emitted timeline -/

/-- C4: for every successful align result, every emitted period starts no
earlier than the first period whose lever-group mean is strictly positive
(in particular such a period exists whenever anything is emitted), and no
emitted period starts after the lever's effective end date when one
exists; the bound holds for the union of the lever and control series, so
it applies to both. -/
theorem C4_timeline_truncation (db : TimelineDb)
    (tipologia fuente unidad categoria palanca : Str)
    (data : List TimelineEntry) (ps psd pe : Option Nat)
    (h : getEvolutionTimelineData db (some tipologia) (some fuente)
        (some unidad) (some categoria) (some palanca) =
      .ok data ps psd pe) :
    ∀ e ∈ data, ∃ fp,
      firstPositiveDate
          (palancaRows db tipologia fuente unidad categoria palanca) =
        some fp ∧
      fp ≤ e.startDate ∧ ∀ d, pe = some d → e.startDate ≤ d := by
  by_cases hm : missingFilterList (some tipologia) (some fuente)
      (some unidad) (some categoria) (some palanca) = []
  · simp only [getEvolutionTimelineData, hm, if_neg, Option.getD_some] at h
    rw [if_neg (by simp [hm])] at h
    obtain ⟨hdata, hps, hpsd, hpe⟩ := (TimelineResult.ok.injEq _ _ _ _ _ _ _ _).mp h
    intro e he
    rw [← hdata] at he
    simp only [timelineData, List.mem_map] at he
    obtain ⟨kv, hkv, hke⟩ := he
    have hkv' := mem_sortBy hkv
    simp only [allPeriods, List.mem_append] at hkv'
    have hstart : e.startDate = kv.2.startDate := by rw [← hke]
    rcases hkv' with h' | h'
    · obtain ⟨fp, hfp, hle, hend⟩ := mem_buildSeriesDict h'
      exact ⟨fp, hfp, by rw [hstart]; exact hle,
             fun d hd => by rw [hstart]; exact hend d (hpe ▸ hd)⟩
    · obtain ⟨fp, hfp, hle, hend⟩ :=
        mem_buildSeriesDict (List.mem_of_mem_filter h')
      exact ⟨fp, hfp, by rw [hstart]; exact hle,
             fun d hd => by rw [hstart]; exact hend d (hpe ▸ hd)⟩
  · simp [getEvolutionTimelineData, hm] at h

/-- The database of the C4 witness: a lever store and a control store
with data in four periods; the lever mean is 0 in the first period and
the lever's effective end date (15) cuts off the last period. -/
def c4Db : TimelineDb :=
  { stores :=
      [⟨1, some 1, "Conveniencia".toList, "L".toList, true,
        some 7, some 15, some 7, some 15⟩,
       ⟨2, some 2, "Conveniencia".toList, "Control".toList, true,
        some 7, some 15, some 7, some 15⟩],
    facts :=
      [⟨1, "G".toList, "V".toList, "Sell In".toList, ⟨"Q0".toList, 1, 6⟩, 0⟩,
       ⟨1, "G".toList, "V".toList, "Sell In".toList, ⟨"Q1".toList, 7, 13⟩, 4⟩,
       ⟨1, "G".toList, "V".toList, "Sell In".toList, ⟨"Q2".toList, 14, 20⟩, 6⟩,
       ⟨1, "G".toList, "V".toList, "Sell In".toList, ⟨"Q3".toList, 21, 27⟩, 9⟩,
       ⟨2, "G".toList, "V".toList, "Sell In".toList, ⟨"Q0".toList, 1, 6⟩, 2⟩,
       ⟨2, "G".toList, "V".toList, "Sell In".toList, ⟨"Q2".toList, 14, 20⟩, 1⟩,
       ⟨2, "G".toList, "V".toList, "Sell In".toList, ⟨"Q3".toList, 21, 27⟩, 1⟩] }

/-- Concrete instantiation of `C4_timeline_truncation`: periods `Q0`
(before the first positive lever mean) and `Q3` (starting after the end
date 15) are dropped from both series; `Q1` and `Q2` survive. -/
theorem C4_timeline_truncation_witness :
    getEvolutionTimelineData c4Db (some ("Conveniencia".toList))
        (some ("Sell In".toList)) (some ("V".toList)) (some ("G".toList))
        (some ("L".toList)) =
      .ok [⟨"Q1".toList, 7, 7, some 4, none⟩,
           ⟨"Q2".toList, 14, 14, some 6, some 1⟩]
        (some 7) (some 7) (some 15) ∧
    (∀ e ∈ [(⟨"Q1".toList, 7, 7, some 4, none⟩ : TimelineEntry),
            ⟨"Q2".toList, 14, 14, some 6, some 1⟩], ∃ fp,
      firstPositiveDate (palancaRows c4Db ("Conveniencia".toList)
          "Sell In".toList ("V".toList) ("G".toList) ("L".toList)) = some fp ∧
      fp ≤ e.startDate ∧ ∀ d, (some 15 : Option Nat) = some d →
        e.startDate ≤ d) :=
  ⟨by with_unfolding_all decide,
   C4_timeline_truncation c4Db ("Conveniencia".toList) ("Sell In".toList)
     "V".toList ("G".toList) ("L".toList)
     [⟨"Q1".toList, 7, 7, some 4, none⟩,
      ⟨"Q2".toList, 14, 14, some 6, some 1⟩]
     (some 7) (some 7) (some 15)
     (by with_unfolding_all decide)⟩

/-! ## Claim C5 — city restriction of the Droguerías control group -/

/-- The database of the C5 counterexample: the only active treated store
of lever `L` has a NULL city, so the treated-city set is empty; the
control store sits in city 7 and still contributes. -/
def c5Db : TimelineDb :=
  { stores :=
      [⟨1, none, "Droguerías".toList, "L".toList, true,
        some 10, some 30, some 10, some 30⟩,
       ⟨2, some 7, "Droguerías".toList, "Control".toList, true,
        some 10, some 30, some 10, some 30⟩],
    facts :=
      [⟨1, "G".toList, "V".toList, "Sell In".toList, ⟨"P1".toList, 10, 16⟩, 5⟩,
       ⟨2, "G".toList, "V".toList, "Sell In".toList, ⟨"P1".toList, 10, 16⟩, 3⟩] }

/-- C5 fails on the code: when no active treated store has a recorded
city, `palanca_cities` is empty and the code falls back to the **full**
in-typology control set — here the city set of the lever's treated stores
is empty, yet the control store in city 7 contributes the emitted control
value 3. -/
theorem C5_counterexample :
    palancaCities c5Db ("Droguerías".toList) ("L".toList) = [] ∧
    getEvolutionTimelineData c5Db (some ("Droguerías".toList))
        (some ("Sell In".toList)) (some ("V".toList)) (some ("G".toList))
        (some ("L".toList)) =
      .ok [⟨"P1".toList, 10, 10, some 5, some 3⟩]
        (some 10) (some 10) (some 30) := by
  constructor
  · decide
  · with_unfolding_all decide

/-- C5 amended: for the `Droguerías` typology, **provided at least one
active treated store of the chosen lever has a recorded (non-null)
city**, every store-fact pair feeding the control series belongs to a
control store whose city contains an active treated store of the lever;
when no treated store has a recorded city, the full in-typology control
set is used instead. -/
theorem C5_control_city_restriction (db : TimelineDb)
    (tipologia fuente unidad categoria palanca : Str)
    (h1 : tipologia = "Droguerías".toList)
    (h2 : palancaCities db tipologia palanca ≠ []) :
    ∀ pr ∈ controlPairs db tipologia fuente unidad categoria palanca,
      ∃ c, pr.2.cityId = some c ∧
        c ∈ palancaCities db tipologia palanca := by
  intro pr hpr
  rw [controlPairs, if_pos (by exact ⟨h1, h2⟩)] at hpr
  simp only [factStorePairs, List.mem_filter] at hpr
  have hcond := hpr.2
  simp only [Bool.and_eq_true] at hcond
  have hcity := hcond.2
  cases hc : pr.2.cityId with
  | none => rw [hc] at hcity; simp at hcity
  | some c =>
    rw [hc] at hcity
    refine ⟨c, rfl, ?_⟩
    simpa using hcity

/-- The database of the C5 witness: the treated store sits in city 4,
one control store shares city 4 and another sits in city 9 (and is
filtered out). -/
def c5WDb : TimelineDb :=
  { stores :=
      [⟨1, some 4, "Droguerías".toList, "L".toList, true,
        some 10, some 30, some 10, some 30⟩,
       ⟨2, some 4, "Droguerías".toList, "Control".toList, true,
        some 10, some 30, some 10, some 30⟩,
       ⟨3, some 9, "Droguerías".toList, "Control".toList, true,
        some 10, some 30, some 10, some 30⟩],
    facts :=
      [⟨1, "G".toList, "V".toList, "Sell In".toList, ⟨"P1".toList, 10, 16⟩, 5⟩,
       ⟨2, "G".toList, "V".toList, "Sell In".toList, ⟨"P1".toList, 10, 16⟩, 3⟩,
       ⟨3, "G".toList, "V".toList, "Sell In".toList, ⟨"P1".toList, 10, 16⟩, 8⟩] }

/-- Concrete instantiation of `C5_control_city_restriction` on `c5WDb`. -/
theorem C5_control_city_restriction_witness :
    palancaCities c5WDb ("Droguerías".toList) ("L".toList) ≠ [] ∧
    (∀ pr ∈ controlPairs c5WDb ("Droguerías".toList) ("Sell In".toList)
        "V".toList ("G".toList) ("L".toList),
      ∃ c, pr.2.cityId = some c ∧
        c ∈ palancaCities c5WDb ("Droguerías".toList) ("L".toList)) :=
  ⟨by decide,
   C5_control_city_restriction c5WDb ("Droguerías".toList) ("Sell In".toList)
     "V".toList ("G".toList) ("L".toList) rfl (by decide)⟩

/-! ## Claim C6 — missing align filters fail fast without queries -/

/-- C6: when one or more of the five filter arguments is missing or
empty, `get_evolution_timeline_data` returns the structured unsuccessful
result whose `missing_filters` list contains a filter's label exactly
when that filter is missing (in the fixed checking order), and the result
is identical for every database — no query against the store influences
it. -/
theorem C6_missing_filters_fail_fast (db db' : TimelineDb)
    (tipologia fuente unidad categoria palanca : Option Str)
    (h : (filterMissing tipologia || filterMissing fuente ||
          filterMissing unidad || filterMissing categoria ||
          filterMissing palanca) = true) :
    getEvolutionTimelineData db tipologia fuente unidad categoria palanca =
      .missing (missingFilterList tipologia fuente unidad categoria palanca) ∧
    getEvolutionTimelineData db tipologia fuente unidad categoria palanca =
      getEvolutionTimelineData db' tipologia fuente unidad categoria palanca ∧
    ("Tipología".toList ∈
        missingFilterList tipologia fuente unidad categoria palanca ↔
      filterMissing tipologia = true) ∧
    ("Fuente de Datos".toList ∈
        missingFilterList tipologia fuente unidad categoria palanca ↔
      filterMissing fuente = true) ∧
    ("Unidad de Medida".toList ∈
        missingFilterList tipologia fuente unidad categoria palanca ↔
      filterMissing unidad = true) ∧
    ("Categoría".toList ∈
        missingFilterList tipologia fuente unidad categoria palanca ↔
      filterMissing categoria = true) ∧
    ("Palanca".toList ∈
        missingFilterList tipologia fuente unidad categoria palanca ↔
      filterMissing palanca = true) := by
  cases hb1 : filterMissing tipologia <;>
    cases hb2 : filterMissing fuente <;>
      cases hb3 : filterMissing unidad <;>
        cases hb4 : filterMissing categoria <;>
          cases hb5 : filterMissing palanca <;>
            simp_all [getEvolutionTimelineData, missingFilterList]

/-- Concrete instantiation of `C6_missing_filters_fail_fast`: `tipologia`
is `None`, `unidad` is the empty string and `palanca` is `None`; the
result is independent of two different databases (`c4Db` and `c5Db`). -/
theorem C6_missing_filters_fail_fast_witness :
    (filterMissing none || filterMissing (some ("Sell In".toList)) ||
     filterMissing (some ("".toList)) || filterMissing (some ("G".toList)) ||
     filterMissing none) = true ∧
    (getEvolutionTimelineData c4Db none (some ("Sell In".toList))
        (some ("".toList)) (some ("G".toList)) none =
      .missing (missingFilterList none (some ("Sell In".toList))
        (some ("".toList)) (some ("G".toList)) none) ∧
     getEvolutionTimelineData c4Db none (some ("Sell In".toList))
        (some ("".toList)) (some ("G".toList)) none =
      getEvolutionTimelineData c5Db none (some ("Sell In".toList))
        (some ("".toList)) (some ("G".toList)) none ∧
     ("Tipología".toList ∈ missingFilterList none (some ("Sell In".toList))
        (some ("".toList)) (some ("G".toList)) none ↔
      filterMissing (none : Option Str) = true) ∧
     ("Fuente de Datos".toList ∈ missingFilterList none
        (some ("Sell In".toList)) (some ("".toList)) (some ("G".toList)) none ↔
      filterMissing (some ("Sell In".toList)) = true) ∧
     ("Unidad de Medida".toList ∈ missingFilterList none
        (some ("Sell In".toList)) (some ("".toList)) (some ("G".toList)) none ↔
      filterMissing (some ("".toList)) = true) ∧
     ("Categoría".toList ∈ missingFilterList none (some ("Sell In".toList))
        (some ("".toList)) (some ("G".toList)) none ↔
      filterMissing (some ("G".toList)) = true) ∧
     ("Palanca".toList ∈ missingFilterList none (some ("Sell In".toList))
        (some ("".toList)) (some ("G".toList)) none ↔
      filterMissing (none : Option Str) = true)) :=
  ⟨by decide,
   C6_missing_filters_fail_fast c4Db c5Db none (some ("Sell In".toList))
     (some ("".toList)) (some ("G".toList)) none (by decide)⟩

end Spec2Proof
